import Mathlib

/-!
# Verification of the Gemini nutrition-inference client

A shallow embedding of `src/services/geminiService.ts`: the module builds one
request per operation, sends it to a remote generative-model endpoint, and
either parses the JSON text of the response (`estimateNutritionFromImage`,
called `classifyFood` in the specification) or returns the raw text
(`getDailyTip`).

The remote endpoint is modelled as an oracle mapping a request to either a
transport-level failure or the response text.  `JSON.parse` and JavaScript
truthiness/property access are modelled explicitly below, since the control
flow of the source turns on them.
-/

namespace GeminiService

/-! ## JSON values

JavaScript numbers produced by `JSON.parse` are modelled as rationals: every
JSON numeric literal denotes an exact decimal, and two literals denoting the
same number compare equal in JavaScript (`1.0 === 1`), which `ℚ` reflects.
(IEEE-754 rounding of extreme literals is not modelled; no behaviour of the
client depends on it.)  Objects keep their member list in source order;
`JSON.parse` lets a repeated key overwrite the earlier one, so member lookup
below takes the *last* binding.
-/

inductive Json where
  | null : Json
  | bool : Bool → Json
  | num : ℚ → Json
  | str : String → Json
  | arr : List Json → Json
  | obj : List (String × Json) → Json

/-- JavaScript truthiness of a `JSON.parse` result: `null`, `false`, `0` and
`""` are falsy; every other parsed value (any array or object included) is
truthy.  (`undefined` and `NaN` cannot be produced by `JSON.parse`.) -/
def Json.truthy : Json → Bool
  | .null => false
  | .bool b => b
  | .num q => decide (q ≠ 0)
  | .str s => decide (s ≠ "")
  | .arr _ => true
  | .obj _ => true

/-- Last-wins member lookup, matching how `JSON.parse` resolves duplicate keys
when the parsed member list is read back through property access. -/
def lookupMember (k : String) : List (String × Json) → Option Json
  | [] => none
  | (k2, v) :: rest =>
    match lookupMember k rest with
    | some v2 => some v2
    | none => if k2 = k then some v else none

/-- JavaScript property read `x.k` on a `JSON.parse` result that is not
`null`: a member of an object, `undefined` (here `none`) otherwise.  Reading a
property of `null` throws a `TypeError` instead; the pipeline below handles
that case before calling this. -/
def Json.member (j : Json) (k : String) : Option Json :=
  match j with
  | .obj ms => lookupMember k ms
  | _ => none

/-- Truthiness of a possibly-`undefined` value: `undefined` is falsy. -/
def truthyOpt : Option Json → Bool
  | none => false
  | some v => v.truthy

/-! ## A model of `JSON.parse`

A total, executable parser for the RFC 8259 grammar as `JSON.parse` accepts
it: strict number syntax (no leading zeros, a fraction or exponent needs at
least one digit), strings reject unescaped control characters, `\uXXXX`
escapes combine surrogate pairs (a lone surrogate, which Lean strings cannot
carry, becomes U+FFFD).  Recursion is on a fuel counter bounded by the input
length, so totality is structural. -/

def jsonWs (c : Char) : Bool :=
  c = ' ' || c = '\t' || c = '\n' || c = '\r'

def dropWs : List Char → List Char
  | [] => []
  | c :: cs => if jsonWs c then dropWs cs else c :: cs

/-- The whitespace set of JavaScript `String.prototype.trim`: ASCII
whitespace, NBSP, BOM, and the Unicode space and line separators. -/
def jsTrimWs (c : Char) : Bool :=
  c.toNat = 0x9 || c.toNat = 0xA || c.toNat = 0xB || c.toNat = 0xC ||
  c.toNat = 0xD || c.toNat = 0x20 || c.toNat = 0xA0 || c.toNat = 0x1680 ||
  (0x2000 ≤ c.toNat && c.toNat ≤ 0x200A) || c.toNat = 0x2028 ||
  c.toNat = 0x2029 || c.toNat = 0x202F || c.toNat = 0x205F ||
  c.toNat = 0x3000 || c.toNat = 0xFEFF

def dropJsWs : List Char → List Char
  | [] => []
  | c :: cs => if jsTrimWs c then dropJsWs cs else c :: cs

/-- Model of JavaScript `s.trim()`: strip leading and trailing whitespace. -/
def jsTrim (s : String) : String :=
  ⟨(dropJsWs (dropJsWs s.toList).reverse).reverse⟩

def isDigitCh (c : Char) : Bool := c.isDigit

def digitSpan (cs : List Char) : List Char × List Char :=
  (cs.takeWhile isDigitCh, cs.dropWhile isDigitCh)

def digitsVal (ds : List Char) : Nat :=
  ds.foldl (fun a c => 10 * a + (c.toNat - 48)) 0

def hexDigitVal (c : Char) : Option Nat :=
  let n := c.toNat
  if 48 ≤ n ∧ n ≤ 57 then some (n - 48)
  else if 97 ≤ n ∧ n ≤ 102 then some (n - 87)
  else if 65 ≤ n ∧ n ≤ 70 then some (n - 55)
  else none

def hexQuad : List Char → Option (Nat × List Char)
  | a :: b :: c :: d :: r => do
    let vs ← [a, b, c, d].mapM hexDigitVal
    some (vs.foldl (fun acc v => 16 * acc + v) 0, r)
  | _ => none

def simpleEscape (c : Char) : Option Char :=
  if c = '"' ∨ c = '\\' ∨ c = '/' then some c
  else if c = 'b' then some (Char.ofNat 8)
  else if c = 'f' then some (Char.ofNat 12)
  else if c = 'n' then some (Char.ofNat 10)
  else if c = 'r' then some (Char.ofNat 13)
  else if c = 't' then some (Char.ofNat 9)
  else none

/-- Decode the body of a string literal (the opening quote already consumed).
Fuel is spent once per consumed character group. -/
def strBody (fuel : Nat) (acc : List Char) (cs : List Char) :
    Option (String × List Char) :=
  match fuel, cs with
  | 0, _ => none
  | _ + 1, [] => none
  | f + 1, c :: rest =>
    if c = '"' then some (⟨acc.reverse⟩, rest)
    else if c = '\\' then
      match rest with
      | [] => none
      | e :: rest2 =>
        if e = 'u' then
          match hexQuad rest2 with
          | none => none
          | some (n, rest3) =>
            if 0xD800 ≤ n ∧ n ≤ 0xDBFF then
              match rest3 with
              | '\\' :: 'u' :: rest4 =>
                match hexQuad rest4 with
                | some (m, rest5) =>
                  if 0xDC00 ≤ m ∧ m ≤ 0xDFFF then
                    let code := 0x10000 + (n - 0xD800) * 0x400 + (m - 0xDC00)
                    strBody f (Char.ofNat code :: acc) rest5
                  else strBody f (Char.ofNat 0xFFFD :: acc) ('\\' :: 'u' :: rest4)
                | none => strBody f (Char.ofNat 0xFFFD :: acc) ('\\' :: 'u' :: rest4)
              | _ => strBody f (Char.ofNat 0xFFFD :: acc) rest3
            else if 0xDC00 ≤ n ∧ n ≤ 0xDFFF then
              strBody f (Char.ofNat 0xFFFD :: acc) rest3
            else strBody f (Char.ofNat n :: acc) rest3
        else
          match simpleEscape e with
          | some ch => strBody f (ch :: acc) rest2
          | none => none
    else if c.toNat < 0x20 then none
    else strBody f (c :: acc) rest

/-- JSON number: `-? int frac? exp?`, with the integer part either `0` or a
nonzero digit followed by digits, as `JSON.parse` requires. -/
def numToken (cs : List Char) : Option (ℚ × List Char) :=
  let neg := cs.head? = some '-'
  let cs1 := if neg then cs.tail else cs
  match cs1 with
  | [] => none
  | c :: _ =>
    if ¬ isDigitCh c then none
    else
      let (intDs, cs2) :=
        if c = '0' then ([c], cs1.tail)
        else digitSpan cs1
      let fracPresent := cs2.head? = some '.'
      let (fracDs, cs3) :=
        if fracPresent then digitSpan cs2.tail else ([], cs2)
      if fracPresent ∧ fracDs = [] then none
      else
        let (expOk, expVal, cs4) : Bool × Int × List Char :=
          if cs3.head? = some 'e' ∨ cs3.head? = some 'E' then
            let r := cs3.tail
            let esgn : Int := if r.head? = some '-' then -1 else 1
            let r1 :=
              if r.head? = some '-' ∨ r.head? = some '+' then r.tail else r
            match digitSpan r1 with
            | ([], _) => (false, 0, r1)
            | (eds, r2) => (true, esgn * (digitsVal eds : Int), r2)
          else (true, 0, cs3)
        if ¬ expOk then none
        else
          let mant : Int := (digitsVal (intDs ++ fracDs) : Int)
          let signed : Int := if neg then -mant else mant
          let e : Int := expVal - (fracDs.length : Int)
          some (mkRat (signed * 10 ^ (max e 0).toNat) (10 ^ (max (-e) 0).toNat), cs4)

mutual

/-- One JSON value, leading whitespace allowed. -/
def jsonValue : Nat → List Char → Option (Json × List Char)
  | 0, _ => none
  | f + 1, cs =>
    match dropWs cs with
    | 'n' :: r =>
      if r.take 3 = ['u', 'l', 'l'] then some (.null, r.drop 3) else none
    | 't' :: r =>
      if r.take 3 = ['r', 'u', 'e'] then some (.bool true, r.drop 3) else none
    | 'f' :: r =>
      if r.take 4 = ['a', 'l', 's', 'e'] then some (.bool false, r.drop 4)
      else none
    | '"' :: r =>
      match strBody (r.length + 1) [] r with
      | some (s, r2) => some (.str s, r2)
      | none => none
    | '[' :: r =>
      match dropWs r with
      | ']' :: r2 => some (.arr [], r2)
      | r2 =>
        match jsonElems f r2 with
        | some (vs, r3) => some (.arr vs, r3)
        | none => none
    | '{' :: r =>
      match dropWs r with
      | '}' :: r2 => some (.obj [], r2)
      | r2 =>
        match jsonMembers f r2 with
        | some (ms, r3) => some (.obj ms, r3)
        | none => none
    | c :: r =>
      if c = '-' || isDigitCh c then
        match numToken (c :: r) with
        | some (q, r2) => some (.num q, r2)
        | none => none
      else none
    | [] => none

/-- One or more comma-separated array elements, then `]`. -/
def jsonElems : Nat → List Char → Option (List Json × List Char)
  | 0, _ => none
  | f + 1, cs =>
    match jsonValue f cs with
    | none => none
    | some (v, r) =>
      match dropWs r with
      | ',' :: r2 =>
        match jsonElems f r2 with
        | some (vs, r3) => some (v :: vs, r3)
        | none => none
      | ']' :: r2 => some ([v], r2)
      | _ => none

/-- One or more comma-separated `"key": value` members, then `}`. -/
def jsonMembers : Nat → List Char → Option (List (String × Json) × List Char)
  | 0, _ => none
  | f + 1, cs =>
    match dropWs cs with
    | '"' :: r =>
      match strBody (r.length + 1) [] r with
      | none => none
      | some (k, r1) =>
        match dropWs r1 with
        | ':' :: r2 =>
          match jsonValue f r2 with
          | none => none
          | some (v, r3) =>
            match dropWs r3 with
            | ',' :: r4 =>
              match jsonMembers f r4 with
              | some (ms, r5) => some ((k, v) :: ms, r5)
              | none => none
            | '}' :: r4 => some ([(k, v)], r4)
            | _ => none
        | _ => none
    | _ => none

end

/-- The model of `JSON.parse`: `none` exactly when `JSON.parse` would throw a
`SyntaxError`. -/
def Json.parse (s : String) : Option Json :=
  let cs := s.toList
  match jsonValue (cs.length + 1) cs with
  | some (v, rest) =>
    match dropWs rest with
    | [] => some v
    | _ => none
  | none => none

/-! ## The wire contract

The declarative response schemas and the request shapes, as built in the
source.  They are carried on the request verbatim (the schema is a generation
constraint for the remote service; the client performs no local validation
against it). -/

/-- A response-schema node as declared in the source: a leaf carries its
`type` and a `description`; an object node carries `properties` and, when the
source declares one, a `required` list. -/
inductive Schema where
  | string : String → Schema
  | number : String → Schema
  | object : List (String × Schema) → Option (List String) → Schema

/-- `nutritionSchema` from the source. -/
def nutritionSchema : Schema :=
  .object
    [("calories", .number "Estimated calories for the portion."),
     ("protein", .number "Estimated grams of protein."),
     ("carbs", .number "Estimated grams of carbohydrates."),
     ("fat", .number "Estimated grams of fat.")]
    (some ["calories", "protein", "carbs", "fat"])

/-- `foodDetectionSchema` from the source (note: no top-level `required`). -/
def foodDetectionSchema : Schema :=
  .object
    [("error",
      .string "An error message if the food is not recognized or the image has no food."),
     ("name", .string "The name of the detected dish or food."),
     ("portionSize",
      .string "A typical serving size, e.g., \"1 unit\", \"1 plate\", \"1 slice\", \"1 bowl\", \"100g\"."),
     ("nutrition", nutritionSchema)]
    none

structure InlineData where
  mimeType : String
  data : String

inductive Part where
  | inlineData : InlineData → Part
  | text : String → Part

/-- `contents` of a request: either a parts object (image call) or a plain
prompt string (tip call). -/
inductive Contents where
  | parts : List Part → Contents
  | text : String → Contents

structure GenerationConfig where
  responseMimeType : String
  responseSchema : Schema

/-- One `ai.models.generateContent` request. -/
structure GenRequest where
  model : String
  contents : Contents
  config : Option GenerationConfig

/-- `const model` from the source. -/
def model : String := "gemini-2.5-flash"

/-- The classification prompt, verbatim from the source. -/
def classifyPrompt : String :=
  "\nYou are a nutritional expert specialized in Argentine food and everyday international dishes.\nAnalyze the attached image and identify the SINGLE primary food or dish.\n\nYour goals:\n- Always choose the closest reasonable dish/food, even if it is not a perfect match.\n- Only use \"error\" if the image clearly does not contain food or is impossible to interpret.\n\n### A. Argentine main dishes (prefer these when they match)\n- Empanada de carne\n- Empanada de pollo\n- Empanada de jamón y queso\n- Milanesa de carne\n- Milanesa de pollo\n- Milanesa napolitana\n- Asado (carne vacuna a la parrilla)\n- Chorizo a la parrilla / Choripán\n- Provoleta\n- Pollo al horno con papas\n- Pastel de papa\n- Locro\n- Humita en chala\n- Pizza muzzarella\n- Pizza napolitana\n- Pizza de fugazzeta\n- Pizzanesa\n- Fideos con salsa de tomate (fideos con tuco)\n- Fideos con manteca y queso rallado\n- Ñoquis de papa con salsa\n- Arroz con pollo\n- Polenta con salsa de tomate y queso\n- Hamburguesa casera con pan\n- Sandwich de milanesa\n- Ensalada mixta (lechuga, tomate, cebolla)\n- Ensalada rusa (papa, zanahoria, arvejas, mayonesa)\n- Tarta de verdura o jamón y queso\n- Tortilla de papa (tortilla española)\n- Pancho (hot dog argentino)\n\n### B. Common international / generic dishes\n- Pasta con salsa de tomate (spaghetti, penne, etc.)\n- Pasta con salsa blanca / crema\n- Lasagna\n- Pizza de pepperoni\n- Cheeseburger (hamburguesa con queso)\n- Hot dog\n- Sushi (rolls variados)\n- Tacos de carne\n- Tacos de pollo\n- Burrito\n- Wrap de pollo\n- Curry de pollo con arroz\n- Bowl de arroz con vegetales\n- Pollo grillado con guarnición\n- Filete de salmón grillado\n- Fish and chips (pescado frito con papas)\n- Stir-fry de vegetales con arroz\n- Sandwich de jamón y queso\n- Omelette con queso y vegetales\n- Sopa (sopa de verduras, sopa de pollo, sopa cremosa)\n\n### C. Fruits (as main item)\n- Banana\n- Manzana\n- Naranja\n- Mandarina\n- Pera\n- Uvas\n- Sandía\n- Melón\n- Frutilla / fresa\n- Arándanos\n- Kiwi\n- Ananá / piña\n- Durazno\n- Ciruela\n\n### D. Vegetables / sides\n- Papa hervida\n- Papa al horno\n- Papa frita (french fries)\n- Batata / camote\n- Zanahoria\n- Tomate\n- Lechuga\n- Cebolla\n- Morrón / pimiento\n- Zucchini / zapallito\n- Brócoli\n- Espinaca\n- Repollo\n- Mix de vegetales salteados\n- Ensalada variada en bowl\n\n### E. Desserts and sweets\n- Helado en pote (1 o 2 bochas)\n- Flan con dulce de leche\n- Panqueque con dulce de leche\n- Brownie\n- Torta de chocolate\n- Tiramisu\n- Alfajor de dulce de leche\n- Factura (medialuna, vigilante, etc.)\n- Galletitas dulces\n\n### F. Drinks (if they are clearly the main item)\n- Vaso de agua\n- Gaseosa (cola)\n- Jugo de fruta\n- Café\n- Mate\n- Cerveza\n\n### Behavior rules\n\n1. ALWAYS try to classify the food as one of the items above or the closest similar dish.\n   - Example: any spaghetti-like pasta with red sauce -> \"Pasta con salsa de tomate\".\n   - Example: any grilled steak with side -> \"Asado\" or \"meat dish\" depending on the image.\n2. If there are multiple items on the plate, choose the one that visually occupies the most space.\n3. For portionSize, use natural labels like:\n   - \"1 unit\", \"2 units\"\n   - \"1 plate\", \"1 slice\", \"1 bowl\"\n   - \"100g approx.\"\n4. Nutrition values must be your best realistic estimate for that portion:\n   - calories (kcal)\n   - protein (grams)\n   - carbs (grams)\n   - fat (grams)\n5. ONLY use error if:\n   - The image clearly has no food (for example, a car, a person, a wall), or\n   - It is so blurred or dark that you cannot even guess the type of food.\n\nYou MUST return a JSON object that matches this structure:\n\n\x7b\n  \"error\": string | null,\n  \"name\": string,\n  \"portionSize\": string,\n  \"nutrition\": \x7b\n    \"calories\": number,\n    \"protein\": number,\n    \"carbs\": number,\n    \"fat\": number\n  \x7d\n\x7d\n"

def tipPrompt : String :=
  "Generate a single, concise, and encouraging nutritional tip for the day, relevant to Argentine culture. Keep it under 25 words. For example: \x27Enjoy a glass of Malbec, but in moderation!\x27 or \x27A walk after asado aids digestion.\x27"

/-! ## The two operations

The remote endpoint is an oracle from a request to a transport outcome:
`.error e` models a rejected `generateContent` promise, `.ok text` a fulfilled
one carrying `response.text`. -/

/-- The user-facing message thrown when `name` or `nutrition` is missing. -/
def couldNotIdentifyMsg : String :=
  "Could not identify the food. Please try another photo."

/-- The message of the error rethrown by the `catch` handler. -/
def failedToAnalyzeMsg : String :=
  "Failed to analyze image. The food might not be recognized or there was a network issue."

/-- The static fallback tip returned when the tip request fails. -/
def fallbackTip : String :=
  "Stay hydrated by drinking plenty of water throughout the day!"

/-- The exceptions that can arise inside the `try` block of
`estimateNutritionFromImage`, each mapped by the `catch` handler to the one
generic rethrown error. -/
inductive InnerError where
  | transport : String → InnerError
  | parseFailure : InnerError
  | typeError : InnerError
  | errField : Json → InnerError
  | thrown : String → InnerError

/-- `if (!result.name || !result.nutrition) throw ...; return result`. -/
def checkNameNutrition (result : Json) : Except InnerError Json :=
  if truthyOpt (result.member "name") && truthyOpt (result.member "nutrition") then
    .ok result
  else
    .error (.thrown couldNotIdentifyMsg)

/-- `if (result.error) throw new Error(result.error)`, then the field check. -/
def checkErrorField (result : Json) : Except InnerError Json :=
  match result.member "error" with
  | some v => if v.truthy then .error (.errField v) else checkNameNutrition result
  | none => checkNameNutrition result

/-- The checks performed on the parsed response.  Reading `.error` off a
parsed `null` throws a `TypeError` in JavaScript, so that case fails before
any field check. -/
def processParsed (result : Json) : Except InnerError Json :=
  match result with
  | .null => .error .typeError
  | r => checkErrorField r

/-- The `try` block of `estimateNutritionFromImage` after the remote call:
trim the response text, `JSON.parse` it, run the checks. -/
def estimateTryBody (remote : Except String String) : Except InnerError Json :=
  match remote with
  | .error e => .error (.transport e)
  | .ok text =>
    match Json.parse (jsTrim text) with
    | none => .error .parseFailure
    | some result => processParsed result

/-- `estimateNutritionFromImage` (the spec\x27s `classifyFood`): the `catch`
handler rewraps every inner exception into the one generic error.  On success
the parsed object is returned as is (`return result as DetectedFood` is a
compile-time cast only). -/
def estimateNutritionFromImage (remote : Except String String) :
    Except String Json :=
  match estimateTryBody remote with
  | .ok r => .ok r
  | .error _ => .error failedToAnalyzeMsg

/-- `getDailyTip`: the raw `response.text` on success, the static fallback on
any failure; no error ever propagates. -/
def getDailyTip (remote : Except String String) : String :=
  match remote with
  | .ok text => text
  | .error _ => fallbackTip

/-- The request built by `estimateNutritionFromImage`. -/
def classifyRequest (base64Image : String) : GenRequest :=
  { model := model
    contents := .parts [.inlineData ⟨"image/jpeg", base64Image⟩, .text classifyPrompt]
    config := some ⟨"application/json", foodDetectionSchema⟩ }

/-- The request built by `getDailyTip`. -/
def tipRequest : GenRequest :=
  { model := model, contents := .text tipPrompt, config := none }

/-- `estimateNutritionFromImage` run against a remote oracle, paired with the
list of requests issued to the endpoint.  The body of the source performs a
single `generateContent` call and contains no loop or retry, so exactly one
request is logged, on success and on failure alike. -/
def estimateNutritionFromImageRun (oracle : GenRequest → Except String String)
    (base64Image : String) : Except String Json × List GenRequest :=
  let req := classifyRequest base64Image
  (estimateNutritionFromImage (oracle req), [req])

/-- `getDailyTip` run against a remote oracle, paired with the request log. -/
def getDailyTipRun (oracle : GenRequest → Except String String) :
    String × List GenRequest :=
  (getDailyTip (oracle tipRequest), [tipRequest])

/-! ## The FoodResult record of the spec

Modelled from the spec: the repository\x27s `DetectedFood` type and any
serialization of it live outside `src/` (only `../types` is imported there),
so the record and its JSON codec are taken from the spec\x27s data-model
section: `\x7b name, portionSize, nutrition: \x7bcalories, protein, carbs,
fat\x7d, error?: string \x7d`.  Serialization is modelled at the JSON-value
level; the textual layer is the platform\x27s `JSON.stringify`/`JSON.parse`
pair, which is identity on JSON values (IEEE-754 number formatting aside,
which this model does not cover). -/

structure NutritionEstimate where
  calories : ℚ
  protein : ℚ
  carbs : ℚ
  fat : ℚ

structure FoodResult where
  name : String
  portionSize : String
  nutrition : NutritionEstimate
  error : Option String

/-- Modelled from the spec: serialize a `NutritionEstimate`. -/
def NutritionEstimate.toJson (n : NutritionEstimate) : Json :=
  .obj [("calories", .num n.calories), ("protein", .num n.protein),
    ("carbs", .num n.carbs), ("fat", .num n.fat)]

/-- Modelled from the spec: serialize a `FoodResult`; the optional `error`
member is emitted only when present. -/
def FoodResult.toJson (r : FoodResult) : Json :=
  .obj
    ([("name", .str r.name), ("portionSize", .str r.portionSize),
      ("nutrition", r.nutrition.toJson)] ++
      (match r.error with
       | some e => [("error", Json.str e)]
       | none => []))

def readStr? (j : Json) (k : String) : Option String :=
  match j.member k with
  | some (.str s) => some s
  | _ => none

def readNum? (j : Json) (k : String) : Option ℚ :=
  match j.member k with
  | some (.num q) => some q
  | _ => none

/-- Modelled from the spec: read a `NutritionEstimate` back from JSON. -/
def NutritionEstimate.fromJson? (j : Json) : Option NutritionEstimate := do
  let c ← readNum? j "calories"
  let p ← readNum? j "protein"
  let cb ← readNum? j "carbs"
  let f ← readNum? j "fat"
  some ⟨c, p, cb, f⟩

/-- Modelled from the spec: read a `FoodResult` back from JSON. -/
def FoodResult.fromJson? (j : Json) : Option FoodResult := do
  let n ← readStr? j "name"
  let ps ← readStr? j "portionSize"
  let nutJ ← j.member "nutrition"
  let nut ← NutritionEstimate.fromJson? nutJ
  some ⟨n, ps, nut, readStr? j "error"⟩

/-- All four nutrition fields present, numeric, and non-negative. -/
def nutritionNonneg (n : Json) : Bool :=
  (["calories", "protein", "carbs", "fat"]).all fun f =>
    match n.member f with
    | some (.num q) => decide (0 ≤ q)
    | _ => false

end GeminiService

namespace GeminiService

/-! ## Characterization lemmas -/

/-- `checkNameNutrition` succeeds exactly on a truthy `name` and a truthy
`nutrition`, and returns its argument. -/
theorem checkNameNutrition_ok_iff (j r : Json) :
    checkNameNutrition j = .ok r ↔
      r = j ∧ truthyOpt (j.member "name") = true ∧
        truthyOpt (j.member "nutrition") = true := by
  unfold checkNameNutrition
  cases h1 : truthyOpt (j.member "name") <;>
    cases h2 : truthyOpt (j.member "nutrition") <;>
      simp [h1, h2, eq_comm]

/-- `checkErrorField` succeeds exactly on a falsy `error`, a truthy `name`
and a truthy `nutrition`, and returns its argument. -/
theorem checkErrorField_ok_iff (j r : Json) :
    checkErrorField j = .ok r ↔
      r = j ∧ truthyOpt (j.member "error") = false ∧
        truthyOpt (j.member "name") = true ∧
        truthyOpt (j.member "nutrition") = true := by
  unfold checkErrorField
  cases hm : j.member "error" with
  | none => simp [truthyOpt, checkNameNutrition_ok_iff]
  | some v =>
    cases hv : v.truthy with
    | false => simp [truthyOpt, hv, checkNameNutrition_ok_iff]
    | true => simp [truthyOpt, hv]

/-- `processParsed` succeeds exactly on a falsy `error`, a truthy `name` and
a truthy `nutrition` (a parsed `null` fails the property reads first), and
returns its argument. -/
theorem processParsed_ok_iff (j r : Json) :
    processParsed j = .ok r ↔
      r = j ∧ truthyOpt (j.member "error") = false ∧
        truthyOpt (j.member "name") = true ∧
        truthyOpt (j.member "nutrition") = true := by
  cases j with
  | null => simp [processParsed, Json.member, truthyOpt]
  | bool b =>
    rw [show processParsed (Json.bool b) = checkErrorField (Json.bool b) from rfl]
    exact checkErrorField_ok_iff _ r
  | num q =>
    rw [show processParsed (Json.num q) = checkErrorField (Json.num q) from rfl]
    exact checkErrorField_ok_iff _ r
  | str s =>
    rw [show processParsed (Json.str s) = checkErrorField (Json.str s) from rfl]
    exact checkErrorField_ok_iff _ r
  | arr xs =>
    rw [show processParsed (Json.arr xs) = checkErrorField (Json.arr xs) from rfl]
    exact checkErrorField_ok_iff _ r
  | obj ms =>
    rw [show processParsed (Json.obj ms) = checkErrorField (Json.obj ms) from rfl]
    exact checkErrorField_ok_iff _ r

/-- The outcome of `estimateNutritionFromImage` is the outcome of its `try`
block with every inner exception replaced by the one generic message. -/
theorem estimate_eq_tryBody (remote : Except String String) :
    estimateNutritionFromImage remote =
      match estimateTryBody remote with
      | .ok r => .ok r
      | .error _ => .error failedToAnalyzeMsg := rfl

/-- Success characterization of the whole operation: the remote call
fulfilled, the trimmed text parsed, and the three truthiness checks passed;
the returned value is the parsed object itself. -/
theorem estimate_ok_iff (remote : Except String String) (r : Json) :
    estimateNutritionFromImage remote = .ok r ↔
      ∃ t, remote = .ok t ∧ Json.parse (jsTrim t) = some r ∧
        truthyOpt (r.member "error") = false ∧
        truthyOpt (r.member "name") = true ∧
        truthyOpt (r.member "nutrition") = true := by
  have hstep : estimateNutritionFromImage remote = .ok r ↔
      estimateTryBody remote = .ok r := by
    rw [estimate_eq_tryBody]
    cases h : estimateTryBody remote <;> simp
  rw [hstep]
  cases remote with
  | error e => simp [estimateTryBody]
  | ok t =>
    rw [show estimateTryBody (.ok t) =
          (match Json.parse (jsTrim t) with
           | none => .error .parseFailure
           | some result => processParsed result) from rfl]
    cases hp : Json.parse (jsTrim t) with
    | none => simp [hp]
    | some j =>
      rw [processParsed_ok_iff]
      constructor
      · rintro ⟨rfl, h1, h2, h3⟩
        exact ⟨t, rfl, hp, h1, h2, h3⟩
      · rintro ⟨t2, ht2, hp2, h1, h2, h3⟩
        cases ht2
        rw [hp] at hp2
        cases hp2
        exact ⟨rfl, h1, h2, h3⟩

/-- Every failure of `estimateNutritionFromImage` carries the one generic
message rethrown by the `catch` handler. -/
theorem estimate_error_msg (remote : Except String String) (m : String)
    (h : estimateNutritionFromImage remote = .error m) :
    m = failedToAnalyzeMsg := by
  rw [estimate_eq_tryBody] at h
  cases htb : estimateTryBody remote <;> rw [htb] at h <;>
    simp at h
  exact h.symm

end GeminiService

namespace GeminiService

/-- A parsed value that is not `null` reaches the field checks. -/
theorem processParsed_not_null (j : Json) (h : j ≠ Json.null) :
    processParsed j = checkErrorField j := by
  cases j with
  | null => exact absurd rfl h
  | bool b => rfl
  | num q => rfl
  | str s => rfl
  | arr xs => rfl
  | obj ms => rfl

/-- A truthy `error` member makes the field checks throw that value. -/
theorem checkErrorField_truthy (j v : Json) (hf : j.member "error" = some v)
    (hv : v.truthy = true) : checkErrorField j = .error (.errField v) := by
  unfold checkErrorField
  rw [hf]
  simp [hv]

/-- `estimateTryBody` on a fulfilled remote call is the parse-and-check
pipeline on the trimmed text. -/
theorem estimateTryBody_ok_text (t : String) :
    estimateTryBody (.ok t) =
      match Json.parse (jsTrim t) with
      | none => .error .parseFailure
      | some result => processParsed result := rfl

/-! ## The claims -/

/-- C1: for any response JSON whose parsed object carries a non-empty string
`error` member, `estimateNutritionFromImage` fails: the `try` block throws an
error carrying that member's value, and the `catch` handler delivers it to
the caller wrapped as the generic analysis-failure message (the second
disjunct of the claim). -/
theorem claim_C1_error_field_failure (t s : String) (j : Json)
    (hp : Json.parse (jsTrim t) = some j)
    (hf : j.member "error" = some (.str s))
    (hs : s ≠ "") :
    estimateTryBody (.ok t) = .error (.errField (.str s)) ∧
    estimateNutritionFromImage (.ok t) = .error failedToAnalyzeMsg := by
  have hnn : j ≠ Json.null := by
    intro h
    rw [h] at hf
    simp [Json.member] at hf
  have htb : estimateTryBody (.ok t) = .error (.errField (.str s)) := by
    rw [estimateTryBody_ok_text, hp]
    show processParsed j = _
    rw [processParsed_not_null j hnn]
    exact checkErrorField_truthy j (.str s) hf (by simp [Json.truthy, hs])
  exact ⟨htb, by rw [estimate_eq_tryBody, htb]⟩

/-- C1 witness: a response that reports `error: "no food"`. -/
theorem claim_C1_witness :
    estimateTryBody (.ok "\x7b\"error\":\"no food\"\x7d") =
      .error (.errField (.str "no food")) ∧
    estimateNutritionFromImage (.ok "\x7b\"error\":\"no food\"\x7d") =
      .error failedToAnalyzeMsg :=
  claim_C1_error_field_failure "\x7b\"error\":\"no food\"\x7d" "no food"
    (.obj [("error", .str "no food")]) rfl rfl (by simp)

/-- C2 counterexample: on the response `"\x7b\x7d"` (valid JSON, `name` and
`nutrition` both missing) the error delivered to the caller is the generic
analysis-failure message, which is not the "could not identify" message the
claim names. -/
theorem claim_C2_counterexample :
    estimateNutritionFromImage (.ok "\x7b\x7d") = .error failedToAnalyzeMsg ∧
    failedToAnalyzeMsg ≠ couldNotIdentifyMsg :=
  ⟨rfl, by simp [failedToAnalyzeMsg, couldNotIdentifyMsg]⟩

/-- C2 (amended): for a parsed non-null response without a truthy `error`
member and missing `name` or `nutrition`, the `try` block throws the
"could not identify" error, but the `catch` handler rewraps it, so the error
delivered to the caller is the generic analysis-failure message. -/
theorem claim_C2_missing_required_fields (t : String) (j : Json)
    (hp : Json.parse (jsTrim t) = some j)
    (hnn : j ≠ Json.null)
    (herr : truthyOpt (j.member "error") = false)
    (hmiss : j.member "name" = none ∨ j.member "nutrition" = none) :
    estimateTryBody (.ok t) = .error (.thrown couldNotIdentifyMsg) ∧
    estimateNutritionFromImage (.ok t) = .error failedToAnalyzeMsg := by
  have hcheck : checkNameNutrition j = .error (.thrown couldNotIdentifyMsg) := by
    unfold checkNameNutrition
    rcases hmiss with h | h <;> simp [h, truthyOpt]
  have hcef : checkErrorField j = .error (.thrown couldNotIdentifyMsg) := by
    unfold checkErrorField
    cases hm : j.member "error" with
    | none => exact hcheck
    | some v =>
      rw [hm] at herr
      simp [truthyOpt] at herr
      simp [herr, hcheck]
  have htb : estimateTryBody (.ok t) = .error (.thrown couldNotIdentifyMsg) := by
    rw [estimateTryBody_ok_text, hp]
    show processParsed j = _
    rw [processParsed_not_null j hnn]
    exact hcef
  exact ⟨htb, by rw [estimate_eq_tryBody, htb]⟩

/-- C2 witness: the empty-object response. -/
theorem claim_C2_witness :
    estimateTryBody (.ok "\x7b\x7d") = .error (.thrown couldNotIdentifyMsg) ∧
    estimateNutritionFromImage (.ok "\x7b\x7d") = .error failedToAnalyzeMsg :=
  claim_C2_missing_required_fields "\x7b\x7d" (.obj []) rfl
    (fun h => Json.noConfusion h) rfl (.inl rfl)

/-- C3: on any transport-level failure, `estimateNutritionFromImage` fails
with the generic analysis-failure message, while `getDailyTip` returns the
literal fallback string; `getDailyTip` has return type `String`, so no error
ever reaches its caller. -/
theorem claim_C3_transport_failure (e : String) :
    estimateNutritionFromImage (.error e) = .error failedToAnalyzeMsg ∧
    getDailyTip (.error e) = fallbackTip :=
  ⟨rfl, rfl⟩

/-- C4: every successful result carries a truthy `name` member (hence a
non-empty string whenever it is a string) and a present, non-null, truthy
`nutrition` member; contrapositively, any response violating this cannot
produce a successful return. -/
theorem claim_C4_success_invariant (remote : Except String String) (r : Json)
    (hs : estimateNutritionFromImage remote = .ok r) :
    (∃ v, r.member "name" = some v ∧ v.truthy = true ∧
      ∀ s, v = Json.str s → s ≠ "") ∧
    (∃ w, r.member "nutrition" = some w ∧ w ≠ Json.null ∧ w.truthy = true) := by
  obtain ⟨t, -, -, -, hname, hnut⟩ := (estimate_ok_iff remote r).mp hs
  constructor
  · cases hm : r.member "name" with
    | none => rw [hm] at hname; simp [truthyOpt] at hname
    | some v =>
      rw [hm] at hname
      simp only [truthyOpt] at hname
      refine ⟨v, rfl, hname, ?_⟩
      rintro s rfl
      simp [Json.truthy] at hname
      exact hname
  · cases hm : r.member "nutrition" with
    | none => rw [hm] at hnut; simp [truthyOpt] at hnut
    | some w =>
      rw [hm] at hnut
      simp only [truthyOpt] at hnut
      refine ⟨w, rfl, ?_, hnut⟩
      intro hwn
      rw [hwn] at hnut
      simp [Json.truthy] at hnut

/-- C4 witness: a successful classification response. -/
theorem claim_C4_witness :
    (∃ v, (Json.obj [("name", .str "x"), ("nutrition", .obj [])]).member "name" =
        some v ∧ v.truthy = true ∧ ∀ s, v = Json.str s → s ≠ "") ∧
    (∃ w, (Json.obj [("name", .str "x"),
        ("nutrition", .obj [])]).member "nutrition" = some w ∧
      w ≠ Json.null ∧ w.truthy = true) :=
  claim_C4_success_invariant (.ok "\x7b\"name\":\"x\",\"nutrition\":\x7b\x7d\x7d")
    (Json.obj [("name", .str "x"), ("nutrition", .obj [])]) rfl

/-- C5 counterexample: a response whose `nutrition` object has a negative
`calories` and no `protein`, `carbs` or `fat` is still returned successfully,
so a successful result need not have all four nutrition fields present and
non-negative. -/
theorem claim_C5_counterexample :
    estimateNutritionFromImage
        (.ok "\x7b\"name\":\"x\",\"nutrition\":\x7b\"calories\":-1\x7d\x7d") =
      .ok (.obj [("name", .str "x"),
        ("nutrition", .obj [("calories", .num (-1))])]) ∧
    nutritionNonneg (.obj [("calories", .num (-1))]) = false :=
  ⟨rfl, rfl⟩

/-- C5 (amended): the client returns the response's nutrition record
verbatim, so a successful result has all four nutrition fields present and
non-negative exactly when the remote response already satisfied that (as the
declared response schema requests); the client itself performs no such
check. -/
theorem claim_C5_nutrition_passthrough (t : String) (j nj r : Json)
    (hp : Json.parse (jsTrim t) = some j)
    (hnj : j.member "nutrition" = some nj)
    (hconf : nutritionNonneg nj = true)
    (hs : estimateNutritionFromImage (.ok t) = .ok r) :
    ∃ nr, r.member "nutrition" = some nr ∧ nutritionNonneg nr = true := by
  obtain ⟨t2, ht2, hp2, -, -, -⟩ := (estimate_ok_iff _ r).mp hs
  cases ht2
  rw [hp] at hp2
  cases hp2
  exact ⟨nj, hnj, hconf⟩

/-- C5 witness: a schema-conforming response. -/
theorem claim_C5_witness :
    ∃ nr, (Json.obj [("name", .str "a"),
        ("nutrition", Json.obj [("calories", .num 1), ("protein", .num 2),
          ("carbs", .num 3), ("fat", .num 4)])]).member "nutrition" = some nr ∧
      nutritionNonneg nr = true :=
  claim_C5_nutrition_passthrough
    "\x7b\"name\":\"a\",\"nutrition\":\x7b\"calories\":1,\"protein\":2,\"carbs\":3,\"fat\":4\x7d\x7d"
    (Json.obj [("name", .str "a"),
      ("nutrition", Json.obj [("calories", .num 1), ("protein", .num 2),
        ("carbs", .num 3), ("fat", .num 4)])])
    (Json.obj [("calories", .num 1), ("protein", .num 2),
      ("carbs", .num 3), ("fat", .num 4)])
    (Json.obj [("name", .str "a"),
      ("nutrition", Json.obj [("calories", .num 1), ("protein", .num 2),
        ("carbs", .num 3), ("fat", .num 4)])])
    rfl rfl rfl rfl

/-- C6: every failure of `estimateNutritionFromImage`, whatever the inner
exception (transport, parse, truthy `error` member, missing fields), reaches
the caller as the single generic analysis-failure message; neither the
response's own `error` text nor the "could not identify" message is ever
delivered directly. -/
theorem claim_C6_single_failure_message (remote : Except String String)
    (m : String) (h : estimateNutritionFromImage remote = .error m) :
    m = failedToAnalyzeMsg :=
  estimate_error_msg remote m h

/-- C6 witness: a transport failure. -/
theorem claim_C6_witness : failedToAnalyzeMsg = failedToAnalyzeMsg :=
  claim_C6_single_failure_message (.error "offline") failedToAnalyzeMsg rfl

/-- C7: `estimateNutritionFromImage` succeeds exactly when the trimmed
response text parses as JSON with a falsy `error` member, a truthy `name`
and a truthy `nutrition`; no further condition is checked, so in particular
missing or negative nutrition sub-fields or a missing `portionSize` do not
prevent success (see the C5 counterexample for a concrete instance). -/
theorem claim_C7_success_characterization (t : String) :
    (∃ r, estimateNutritionFromImage (.ok t) = .ok r) ↔
    (∃ j, Json.parse (jsTrim t) = some j ∧
      truthyOpt (j.member "error") = false ∧
      truthyOpt (j.member "name") = true ∧
      truthyOpt (j.member "nutrition") = true) := by
  constructor
  · rintro ⟨r, hr⟩
    obtain ⟨t2, ht2, hp, h1, h2, h3⟩ := (estimate_ok_iff _ r).mp hr
    cases ht2
    exact ⟨r, hp, h1, h2, h3⟩
  · rintro ⟨j, hp, h1, h2, h3⟩
    exact ⟨j, (estimate_ok_iff _ j).mpr ⟨t, rfl, hp, h1, h2, h3⟩⟩

/-- C8: serializing a well-formed `FoodResult` to JSON and parsing it back
yields an equal `FoodResult` (schema compatibility, at the JSON-value
level). -/
theorem claim_C8_roundtrip (r : FoodResult) :
    FoodResult.fromJson? r.toJson = some r := by
  cases r with
  | mk n ps nut err => cases err <;> rfl

/-- C9: each invocation of either operation issues exactly one request to
the remote endpoint — the logged request list is the one-element list holding
that operation's request — for every oracle behaviour, success and failure
alike; there is no retry and no parallel request. -/
theorem claim_C9_single_request (oracle : GenRequest → Except String String)
    (base64Image : String) :
    (estimateNutritionFromImageRun oracle base64Image).2 =
        [classifyRequest base64Image] ∧
    (getDailyTipRun oracle).2 = [tipRequest] ∧
    (estimateNutritionFromImageRun oracle base64Image).2.length = 1 ∧
    (getDailyTipRun oracle).2.length = 1 :=
  ⟨rfl, rfl, rfl, rfl⟩

/-- C10: a successful `estimateNutritionFromImage` returns exactly the value
`JSON.parse` produced from the trimmed response text — extra members
included, with no normalization or filtering — and `getDailyTip` returns the
fulfilled response text unmodified, with no trimming. -/
theorem claim_C10_verbatim_results (t : String) (r : Json) :
    (estimateNutritionFromImage (.ok t) = .ok r →
      Json.parse (jsTrim t) = some r) ∧
    getDailyTip (.ok t) = t := by
  constructor
  · intro hs
    obtain ⟨t2, ht2, hp, -⟩ := (estimate_ok_iff _ r).mp hs
    cases ht2
    exact hp
  · rfl

/-- C10 witness: a response with an extra member outside the schema, and an
untrimmed tip text. -/
theorem claim_C10_witness :
    Json.parse (jsTrim " \x7b\"name\":\"y\",\"extra\":true,\"nutrition\":\x7b\x7d\x7d") =
      some (.obj [("name", .str "y"), ("extra", .bool true),
        ("nutrition", .obj [])]) ∧
    getDailyTip (.ok "  tip  ") = "  tip  " :=
  ⟨(claim_C10_verbatim_results
      " \x7b\"name\":\"y\",\"extra\":true,\"nutrition\":\x7b\x7d\x7d"
      (.obj [("name", .str "y"), ("extra", .bool true),
        ("nutrition", .obj [])])).1 rfl,
   (claim_C10_verbatim_results "  tip  "
      (.obj [])).2⟩

end GeminiService
